import Mathlib

/-!
Verification development for the onchain-data-fetcher tool
(packages/subquery/customs/onchain-data-fetcher/onchain-data-fetcher.py).

The Python module is shallowly embedded as follows.

* JSON documents (the values produced by response.json and consumed by
  json.dumps) are the inductive type Json, with Json.dumps mirroring
  json.dumps with its default separators.
* Python str.replace (replace every non-overlapping occurrence, scanning
  left to right) is pyReplace; the one call site uses a non-empty pattern.
* The external collaborators (requests.post and the OpenAI chat-completions
  call) are an explicit environment Env: post maps an endpoint and the
  query string of the JSON body to an HTTP response, complete maps a fully
  built request payload to either a completion text or a raised error.
* Raised Python exceptions are modelled as Except.error carrying the
  exception message string (the code raises untyped Exception values,
  so the message is all a caller can observe).
* The module-global OpenAI client is threaded explicitly: run takes the
  global client state before the call and returns the state after, and
  OpenAIClientManager.enter / OpenAIClientManager.exit model the context
  manager protocol (the with statement runs exit on every exit path).
* run additionally returns a Trace recording the observable effects:
  how many schema fetches were attempted, which query-generation prompts
  were built, which chat-completion payloads were sent, which query
  strings were executed against the indexer, and which clients were
  closed.
* The keyword arguments of run that the code reads are gathered in
  Config; description, request, examples and endpoint are modelled as the
  strings every claim supplies (the code would render an absent value as
  the text None or fail on concatenation, which no claim exercises).
-/

namespace OnchainDataFetcher

mutual

/-- JSON values, as produced by response.json and consumed by json.dumps.
Arrays and objects carry their own spine types so that all recursion over
documents is plain structural mutual recursion. -/
inductive Json where
  | null : Json
  | bool : Bool → Json
  | num : Int → Json
  | str : String → Json
  | arr : JsonArray → Json
  | obj : JsonObject → Json

/-- The element list of a JSON array. -/
inductive JsonArray where
  | nil : JsonArray
  | cons : Json → JsonArray → JsonArray

/-- The key-value list of a JSON object. -/
inductive JsonObject where
  | nil : JsonObject
  | cons : String → Json → JsonObject → JsonObject

end

/-- Escaping of one character inside a JSON string literal, as json.dumps
does for the characters that occur in this development. -/
def Json.escapeChar (c : Char) : String :=
  if c = '\\' then "\\\\"
  else if c = '\"' then "\\\""
  else if c = '\n' then "\\n"
  else if c = '\t' then "\\t"
  else if c = '\r' then "\\r"
  else String.singleton c

/-- Escaping of a JSON string body. -/
def Json.escape (s : String) : String :=
  String.join (s.toList.map Json.escapeChar)

mutual

/-- json.dumps with its default separators (a comma-space between items,
a colon-space between a key and its value). -/
def Json.dumps : Json → String
  | .null => "null"
  | .bool true => "true"
  | .bool false => "false"
  | .num n => toString n
  | .str s => "\"" ++ Json.escape s ++ "\""
  | .arr xs => "[" ++ JsonArray.dumpsElems xs ++ "]"
  | .obj kvs => "\x7b" ++ JsonObject.dumpsFields kvs ++ "\x7d"

/-- The comma-space separated serializations of array elements. -/
def JsonArray.dumpsElems : JsonArray → String
  | .nil => ""
  | .cons x .nil => Json.dumps x
  | .cons x (JsonArray.cons y rest) =>
      Json.dumps x ++ ", " ++ JsonArray.dumpsElems (JsonArray.cons y rest)

/-- The comma-space separated serializations of object entries. -/
def JsonObject.dumpsFields : JsonObject → String
  | .nil => ""
  | .cons k v .nil => "\"" ++ Json.escape k ++ "\": " ++ Json.dumps v
  | .cons k v (JsonObject.cons k2 v2 rest) =>
      "\"" ++ Json.escape k ++ "\": " ++ Json.dumps v ++ ", " ++
        JsonObject.dumpsFields (JsonObject.cons k2 v2 rest)

end

/-- Replacement scanner for pyReplace, structurally recursive on a fuel
bound equal to the length of the scanned text, which one step always
consumes at least one character of. -/
def pyReplaceAux (pat repl : List Char) : Nat → List Char → List Char
  | 0, s => s
  | _ + 1, [] => []
  | fuel + 1, c :: rest =>
      if !pat.isEmpty && pat.isPrefixOf (c :: rest) then
        repl ++ pyReplaceAux pat repl fuel ((c :: rest).drop pat.length)
      else
        c :: pyReplaceAux pat repl fuel rest

/-- Python str.replace: replace every non-overlapping occurrence of pat
in s by repl, scanning left to right. (For an empty pat Python would
interleave repl between characters; the one call site of the module uses
the fixed non-empty pattern, for which this definition is faithful.) -/
def pyReplace (s pat repl : String) : String :=
  String.mk (pyReplaceAux pat.toList repl.toList s.toList.length s.toList)

/-- generate_graphql_query (source lines 12 to 32): the query-generation
prompt template, an f-string followed by the examples text and a fixed
tail. -/
def generate_graphql_query (user_request : String) (schema : Json)
    (description examples : String) : String :=
  "\n    You are a GraphQL query generator. Based on the following GraphQL schema and the user\x27s natural language request, generate a valid GraphQL query.\n\n    GraphQL Project Description: \""
    ++ description
    ++ "\"\n\n    User Request: \""
    ++ user_request
    ++ "\"\n\n    GraphQL Schema: "
    ++ Json.dumps schema
    ++ "\n\n    Example Queries:\n\n    "
    ++ examples
    ++ "\n\n    GraphQL Query:\n\n"

/-- analyze_data_and_generate_response (source lines 36 to 44): the
result-analysis prompt template. -/
def analyze_data_and_generate_response (data : Json) : String :=
  "\n    \n    Once the query you have given was executed, the following data was fetched:\n\n    JSON Data: "
    ++ Json.dumps data
    ++ "\n\n    Based on the provided context, please generate a bullet-pointed summary in a machine-readable JSON format. The JSON structure should have an array object named \x27analysis_result,\x27 with each analytical conclusion represented as a separate string element within the array.\n    "

/-- DEFAULT_OPENAI_SETTINGS max_tokens entry (source line 67). -/
def DEFAULT_OPENAI_SETTINGS_max_tokens : Nat := 500

/-- DEFAULT_OPENAI_SETTINGS temperature entry (source line 68). -/
def DEFAULT_OPENAI_SETTINGS_temperature : ℚ := 7 / 10

/-- The module constant named PREFIX in the source (line 70). -/
def PREFIX_ : String := "openai-"

/-- The chat entry of the ENGINES dict (source line 72). -/
def ENGINES_chat : List String := ["gpt-3.5-turbo", "gpt-4"]

/-- The completion entry of the ENGINES dict (source line 73). -/
def ENGINES_completion : List String := ["gpt-3.5-turbo-instruct"]

/-- ALLOWED_TOOLS (source line 75): the prefixed engine names, in dict
insertion order chat then completion. -/
def ALLOWED_TOOLS : List String :=
  (ENGINES_chat ++ ENGINES_completion).map (fun value => PREFIX_ ++ value)

/-- The fixed introspection query literal of fetch_graphql_schema
(source lines 80 to 95). -/
def introspection_query : String :=
  "\n    \x7b\n      __schema \x7b\n        types \x7b\n          name\n          fields \x7b\n            name\n            type \x7b\n              kind\n              name\n            \x7d\n          \x7d\n        \x7d\n      \x7d\n    \x7d\n    "

/-- An HTTP response as the code observes it: the status code, the raw
body text, and the JSON parse of the body (used only on the 200 path). -/
structure HttpResponse where
  status_code : Nat
  text : String
  jsonBody : Json

/-- A chat.completions.create payload exactly as run builds it. -/
structure ModelRequest where
  model : String
  messages : List (String × String)
  temperature : ℚ
  max_tokens : Nat
  n : Nat
  timeout : Nat
  stop : Option String
deriving DecidableEq

/-- The external collaborators: requests.post keyed by endpoint and the
query string of the JSON body, and the OpenAI completion call, which
either returns the first choice text or raises. -/
structure Env where
  post : String → String → HttpResponse
  complete : ModelRequest → Except String String

/-- fetch_graphql_schema (source lines 79 to 102). -/
def fetch_graphql_schema (env : Env) (endpoint : String) : Except String Json :=
  let response := env.post endpoint introspection_query
  if response.status_code = 200 then
    Except.ok response.jsonBody
  else
    Except.error
      ("Failed to fetch schema: " ++ toString response.status_code ++ ", " ++ response.text)

/-- fetch_data_from_indexer (source lines 105 to 112); note its error
message reuses the schema-fetch wording. -/
def fetch_data_from_indexer (env : Env) (endpoint query_to_be_used : String) :
    Except String Json :=
  let response := env.post endpoint query_to_be_used
  if response.status_code = 200 then
    Except.ok response.jsonBody
  else
    Except.error
      ("Failed to fetch schema: " ++ toString response.status_code ++ ", " ++ response.text)

/-- The module-global OpenAI client, identified by the api key it was
constructed with. -/
structure OpenAIClient where
  api_key : String
deriving DecidableEq

/-- Outcome of OpenAIClientManager.__enter__: the client handed to the
with-block, the global client afterwards, and whether a new connection
was created. -/
structure EnterResult where
  value : OpenAIClient
  globalClient : Option OpenAIClient
  createdNew : Bool
deriving DecidableEq

/-- OpenAIClientManager.__enter__ (source lines 53 to 57): create the
global client only when absent, then return it. -/
def OpenAIClientManager.enter (api_key : String) (client0 : Option OpenAIClient) :
    EnterResult :=
  match client0 with
  | none => { value := { api_key := api_key }, globalClient := some { api_key := api_key }, createdNew := true }
  | some c => { value := c, globalClient := some c, createdNew := false }

/-- OpenAIClientManager.__exit__ (source lines 59 to 63): close the
global client when present and reset it to None; returns the new global
state and the list of clients closed. -/
def OpenAIClientManager.exit (client0 : Option OpenAIClient) :
    Option OpenAIClient × List OpenAIClient :=
  match client0 with
  | none => (none, [])
  | some c => (none, [c])

/-- The 4-tuple run returns: summary-or-message text, the optional query
prompt, and two always-None slots. -/
abbrev RunResult := String × Option String × Option Unit × Option Unit

/-- Observable effects of one run invocation. -/
structure Trace where
  schemaFetchCalls : Nat
  promptsBuilt : List String
  modelCalls : List ModelRequest
  indexerExecCalls : List String
  closedClients : List OpenAIClient
deriving DecidableEq

/-- The keyword arguments of run that the code reads. -/
structure Config where
  api_key : String
  tool : String
  endpoint : String
  description : String
  request : String
  examples : String
  max_tokens : Option Nat
  temperature : Option ℚ

/-- The first chat.completions.create payload of run (source lines 135
to 146): the single-message conversation holding the query-generation
prompt, with n = 1, timeout = 120 and stop = None. -/
def first_request (cfg : Config) (schema : Json) : ModelRequest :=
  { model := pyReplace cfg.tool PREFIX_ ""
    messages := [("user", generate_graphql_query cfg.request schema cfg.description cfg.examples)]
    temperature := cfg.temperature.getD DEFAULT_OPENAI_SETTINGS_temperature
    max_tokens := cfg.max_tokens.getD DEFAULT_OPENAI_SETTINGS_max_tokens
    n := 1
    timeout := 120
    stop := none }

/-- The second chat.completions.create payload of run (source lines 150
to 166): the three-message conversation holding the query-generation
prompt, the generated query, and the analysis prompt. -/
def second_request (cfg : Config) (schema : Json) (query_to_be_used : String)
    (requested_data : Json) : ModelRequest :=
  { model := pyReplace cfg.tool PREFIX_ ""
    messages :=
      [("user", generate_graphql_query cfg.request schema cfg.description cfg.examples),
       ("user", query_to_be_used),
       ("user", analyze_data_and_generate_response requested_data)]
    temperature := cfg.temperature.getD DEFAULT_OPENAI_SETTINGS_temperature
    max_tokens := cfg.max_tokens.getD DEFAULT_OPENAI_SETTINGS_max_tokens
    n := 1
    timeout := 120
    stop := none }

/-- The body of the with-block of run (source lines 118 to 167): fetch
the schema, build the prompt, gate on the allow-list, and perform the
two completion calls around the indexer execution. -/
def runBody (env : Env) (cfg : Config) : Except String RunResult × Trace :=
  match fetch_graphql_schema env cfg.endpoint with
  | Except.error e =>
      (Except.error e,
       { schemaFetchCalls := 1, promptsBuilt := [], modelCalls := [],
         indexerExecCalls := [], closedClients := [] })
  | Except.ok schema =>
      let prompt := generate_graphql_query cfg.request schema cfg.description cfg.examples
      if cfg.tool ∉ ALLOWED_TOOLS then
        (Except.ok ("Tool " ++ cfg.tool ++ " is not in the list of supported tools.",
                    none, none, none),
         { schemaFetchCalls := 1, promptsBuilt := [prompt], modelCalls := [],
           indexerExecCalls := [], closedClients := [] })
      else
        match env.complete (first_request cfg schema) with
        | Except.error e =>
            (Except.error e,
             { schemaFetchCalls := 1, promptsBuilt := [prompt],
               modelCalls := [first_request cfg schema],
               indexerExecCalls := [], closedClients := [] })
        | Except.ok query_to_be_used =>
            match fetch_data_from_indexer env cfg.endpoint query_to_be_used with
            | Except.error e =>
                (Except.error e,
                 { schemaFetchCalls := 1, promptsBuilt := [prompt],
                   modelCalls := [first_request cfg schema],
                   indexerExecCalls := [query_to_be_used], closedClients := [] })
            | Except.ok requested_data =>
                match env.complete (second_request cfg schema query_to_be_used requested_data) with
                | Except.error e =>
                    (Except.error e,
                     { schemaFetchCalls := 1, promptsBuilt := [prompt],
                       modelCalls := [first_request cfg schema,
                                      second_request cfg schema query_to_be_used requested_data],
                       indexerExecCalls := [query_to_be_used], closedClients := [] })
                | Except.ok summary =>
                    (Except.ok (summary, some prompt, none, none),
                     { schemaFetchCalls := 1, promptsBuilt := [prompt],
                       modelCalls := [first_request cfg schema,
                                      second_request cfg schema query_to_be_used requested_data],
                       indexerExecCalls := [query_to_be_used], closedClients := [] })

/-- run (source lines 115 to 167): enter the client context manager, run
the body, and always run the exit handler, propagating the body outcome.
The second component is the global client after the call and the third
the effect trace. -/
def run (env : Env) (cfg : Config) (client0 : Option OpenAIClient) :
    Except String RunResult × Option OpenAIClient × Trace :=
  let entered := OpenAIClientManager.enter cfg.api_key client0
  let body := runBody env cfg
  let exited := OpenAIClientManager.exit entered.globalClient
  (body.1, exited.1, { body.2 with closedClients := exited.2 })

/-! Concrete fixtures used to instantiate the theorems below. -/

/-- A configuration with a tool from the allow-list. -/
def cfgW : Config :=
  { api_key := "key-1", tool := "openai-gpt-3.5-turbo",
    endpoint := "https://indexer.example",
    description := "token transfers project", request := "list the transfers",
    examples := "query MyQuery", max_tokens := none, temperature := none }

/-- The configuration cfgW with a tool outside the allow-list. -/
def cfgBad : Config := { cfgW with tool := "bad" }

/-- An environment where every collaborator succeeds: introspection yields
an empty-schema document, the model echoes a fixed query on the one-message
conversation and a fixed summary on the three-message one, and query
execution yields an empty data document. -/
def envW : Env :=
  { post := fun _ q =>
      if q = introspection_query then
        { status_code := 200, text := "",
          jsonBody := Json.obj (JsonObject.cons "__schema"
            (Json.obj (JsonObject.cons "types" (Json.arr JsonArray.nil) JsonObject.nil))
            JsonObject.nil) }
      else
        { status_code := 200, text := "",
          jsonBody := Json.obj (JsonObject.cons "data"
            (Json.obj (JsonObject.cons "nodes" (Json.arr JsonArray.nil) JsonObject.nil))
            JsonObject.nil) },
    complete := fun req =>
      if req.messages.length = 1 then Except.ok "query \x7b nodes \x7d"
      else Except.ok "ANALYSIS SUMMARY" }

/-- An environment whose every POST fails with status 404 and body boom. -/
def envBad : Env :=
  { post := fun _ _ => { status_code := 404, text := "boom", jsonBody := Json.null },
    complete := fun _ => Except.ok "" }

/-- An environment where introspection succeeds but executing the
generated query fails with status 500. -/
def envIndexerFail : Env :=
  { post := fun _ q =>
      if q = introspection_query then
        { status_code := 200, text := "", jsonBody := Json.null }
      else
        { status_code := 500, text := "bad query", jsonBody := Json.null },
    complete := fun _ => Except.ok "generated-query" }

end OnchainDataFetcher

namespace OnchainDataFetcher

set_option maxRecDepth 16000

/-- Appending strings is associative (helper shared by several proofs). -/
theorem string_append_assoc (a b c : String) : a ++ b ++ c = a ++ (b ++ c) := by
  rcases a with ⟨la⟩
  rcases b with ⟨lb⟩
  rcases c with ⟨lc⟩
  show String.mk (la ++ lb ++ lc) = String.mk (la ++ (lb ++ lc))
  rw [List.append_assoc]

/-- Claim C9: when the global client is already present, entering the
manager ignores the supplied api key: any two keys yield the same client
and no new connection is created. -/
theorem C9_enter_ignores_api_key (k1 k2 : String) (c : OpenAIClient) :
    OpenAIClientManager.enter k1 (some c) = OpenAIClientManager.enter k2 (some c) ∧
    (OpenAIClientManager.enter k1 (some c)).createdNew = false :=
  ⟨rfl, rfl⟩

/-- Claim C8: on every execution of run, whatever the collaborators do and
whatever the outcome, the client in scope is closed and the global client
reference is reset to absent by the time the with-block exits. -/
theorem C8_client_released (env : Env) (cfg : Config) (client0 : Option OpenAIClient) :
    (run env cfg client0).2.1 = none ∧
    (run env cfg client0).2.2.closedClients =
      [(OpenAIClientManager.enter cfg.api_key client0).value] := by
  cases client0 <;>
    simp [run, OpenAIClientManager.enter, OpenAIClientManager.exit]

/-- Claim C4: the query-generation prompt contains the description, the
request and the serialized schema verbatim, and the examples text appears
unmodified after the schema section. -/
theorem C4_prompt_verbatim (user_request : String) (schema : Json)
    (description examples : String) :
    ∃ a b c d e : String,
      generate_graphql_query user_request schema description examples =
        a ++ description ++ b ++ user_request ++ c ++ Json.dumps schema ++ d ++ examples ++ e :=
  ⟨_, _, _, _, _, rfl⟩

/-- Claim C3: prefixing any engine name of the chat or completion family
with the fixed prefix gives a member of the allow-list that the code maps
back to exactly that name by prefix removal, and every allow-list member
is of this form. -/
theorem C3_tool_resolution :
    (∀ name, name ∈ ENGINES_chat ++ ENGINES_completion →
      (PREFIX_ ++ name) ∈ ALLOWED_TOOLS ∧ pyReplace (PREFIX_ ++ name) PREFIX_ "" = name) ∧
    (∀ tool, tool ∈ ALLOWED_TOOLS →
      ∃ name, (name ∈ ENGINES_chat ++ ENGINES_completion) ∧ tool = PREFIX_ ++ name) := by
  constructor
  · intro name hn
    simp [ENGINES_chat, ENGINES_completion] at hn
    rcases hn with rfl | rfl | rfl <;> exact ⟨by decide, by decide⟩
  · intro tool ht
    simp [ALLOWED_TOOLS, ENGINES_chat, ENGINES_completion, PREFIX_] at ht
    rcases ht with rfl | rfl | rfl
    · exact ⟨"gpt-3.5-turbo", by decide, by decide⟩
    · exact ⟨"gpt-4", by decide, by decide⟩
    · exact ⟨"gpt-3.5-turbo-instruct", by decide, by decide⟩

/-- Witness for C3 at the engine name gpt-4. -/
theorem C3_witness :
    (PREFIX_ ++ "gpt-4") ∈ ALLOWED_TOOLS ∧
    pyReplace (PREFIX_ ++ "gpt-4") PREFIX_ "" = "gpt-4" :=
  C3_tool_resolution.1 "gpt-4" (by decide)

/-- Claim C10: on a non-200 response both fetch_graphql_schema and
fetch_data_from_indexer fail with an error of the same type (a bare
message string) whose message starts with the same fixed prefix, so the
two failures cannot be told apart by type or prefix. -/
theorem C10_same_error_prefix (env : Env) (endpoint query_to_be_used : String)
    (h1 : (env.post endpoint introspection_query).status_code ≠ 200)
    (h2 : (env.post endpoint query_to_be_used).status_code ≠ 200) :
    (∃ s, fetch_graphql_schema env endpoint =
        Except.error ("Failed to fetch schema: " ++ s)) ∧
    (∃ s, fetch_data_from_indexer env endpoint query_to_be_used =
        Except.error ("Failed to fetch schema: " ++ s)) := by
  constructor
  · exact ⟨toString (env.post endpoint introspection_query).status_code ++ ", " ++
        (env.post endpoint introspection_query).text,
      by simp [fetch_graphql_schema, h1, string_append_assoc]⟩
  · exact ⟨toString (env.post endpoint query_to_be_used).status_code ++ ", " ++
        (env.post endpoint query_to_be_used).text,
      by simp [fetch_data_from_indexer, h2, string_append_assoc]⟩

/-- Witness for C10 on the all-404 environment. -/
theorem C10_witness :
    (∃ s, fetch_graphql_schema envBad "ep" =
        Except.error ("Failed to fetch schema: " ++ s)) ∧
    (∃ s, fetch_data_from_indexer envBad "ep" "q" =
        Except.error ("Failed to fetch schema: " ++ s)) :=
  C10_same_error_prefix envBad "ep" "q" (by decide) (by decide)

/-- Claim C6: when the introspection POST returns a non-200 status, run
fails with the schema-fetch error carrying the status code and the raw
body, after exactly one fetch attempt, without any model call, any
indexer query execution, or any prompt construction. -/
theorem C6_schema_fetch_failure (env : Env) (cfg : Config) (client0 : Option OpenAIClient)
    (hFail : (env.post cfg.endpoint introspection_query).status_code ≠ 200) :
    (run env cfg client0).1 =
      Except.error ("Failed to fetch schema: " ++
        toString (env.post cfg.endpoint introspection_query).status_code ++ ", " ++
        (env.post cfg.endpoint introspection_query).text) ∧
    (run env cfg client0).2.2.schemaFetchCalls = 1 ∧
    (run env cfg client0).2.2.modelCalls = [] ∧
    (run env cfg client0).2.2.indexerExecCalls = [] ∧
    (run env cfg client0).2.2.promptsBuilt = [] := by
  simp [run, runBody, fetch_graphql_schema, hFail]

/-- Witness for C6 on the all-404 environment. -/
theorem C6_witness :
    (run envBad cfgW none).1 = Except.error "Failed to fetch schema: 404, boom" ∧
    (run envBad cfgW none).2.2.schemaFetchCalls = 1 ∧
    (run envBad cfgW none).2.2.modelCalls = [] ∧
    (run envBad cfgW none).2.2.indexerExecCalls = [] ∧
    (run envBad cfgW none).2.2.promptsBuilt = [] :=
  C6_schema_fetch_failure envBad cfgW none (by decide)

/-- Counterexample to C2 as stated: with the tool bad, which is outside
the allow-list, and an endpoint whose introspection POST fails, run does
not return the rejection 4-tuple at all; it propagates the schema-fetch
error, because the allow-list gate only runs after the schema fetch. -/
theorem C2_counterexample :
    "bad" ∉ ALLOWED_TOOLS ∧
    (run envBad cfgBad none).1 = Except.error "Failed to fetch schema: 404, boom" ∧
    (run envBad cfgBad none).1 ≠
      Except.ok ("Tool bad is not in the list of supported tools.", none, none, none) := by
  refine ⟨by decide, rfl, ?_⟩
  intro h
  have he : (run envBad cfgBad none).1 =
      Except.error "Failed to fetch schema: 404, boom" := rfl
  exact Except.noConfusion (he.symm.trans h)

/-- Claim C2 as amended: for a config whose tool is outside the
allow-list, run makes no model call and no indexer query execution, and,
provided the introspection POST returns 200, it returns the 4-tuple
holding the rejection message that names the invalid tool and three
none slots. -/
theorem C2_invalid_tool (env : Env) (cfg : Config) (client0 : Option OpenAIClient)
    (hTool : cfg.tool ∉ ALLOWED_TOOLS) :
    ((env.post cfg.endpoint introspection_query).status_code = 200 →
      (run env cfg client0).1 =
        Except.ok ("Tool " ++ cfg.tool ++ " is not in the list of supported tools.",
          none, none, none)) ∧
    (run env cfg client0).2.2.modelCalls = [] ∧
    (run env cfg client0).2.2.indexerExecCalls = [] := by
  refine ⟨?_, ?_, ?_⟩
  · intro h200
    simp [run, runBody, fetch_graphql_schema, h200, hTool]
  · by_cases h : (env.post cfg.endpoint introspection_query).status_code = 200
    all_goals simp [run, runBody, fetch_graphql_schema, h, hTool]
  · by_cases h : (env.post cfg.endpoint introspection_query).status_code = 200
    all_goals simp [run, runBody, fetch_graphql_schema, h, hTool]

/-- Witness for the amended C2: the invalid tool bad on the succeeding
environment. -/
theorem C2_witness :
    (run envW cfgBad none).1 =
      Except.ok ("Tool bad is not in the list of supported tools.", none, none, none) ∧
    (run envW cfgBad none).2.2.modelCalls = [] ∧
    (run envW cfgBad none).2.2.indexerExecCalls = [] := by
  have h := C2_invalid_tool envW cfgBad none (by decide)
  exact ⟨h.1 rfl, h.2.1, h.2.2⟩

/-- Claim C7: when the schema fetch succeeds and the tool is allowed but
executing the generated query returns a non-200 status, run fails with
the execution error carrying the status code and the raw body, after
exactly one execution attempt and with only the first model call made. -/
theorem C7_indexer_failure (env : Env) (cfg : Config) (client0 : Option OpenAIClient)
    (q : String)
    (hSchema : (env.post cfg.endpoint introspection_query).status_code = 200)
    (hTool : cfg.tool ∈ ALLOWED_TOOLS)
    (hQuery : env.complete
        (first_request cfg (env.post cfg.endpoint introspection_query).jsonBody) =
      Except.ok q)
    (hFail : (env.post cfg.endpoint q).status_code ≠ 200) :
    (run env cfg client0).1 =
      Except.error ("Failed to fetch schema: " ++
        toString (env.post cfg.endpoint q).status_code ++ ", " ++
        (env.post cfg.endpoint q).text) ∧
    (run env cfg client0).2.2.modelCalls =
      [first_request cfg (env.post cfg.endpoint introspection_query).jsonBody] ∧
    (run env cfg client0).2.2.indexerExecCalls = [q] := by
  simp [run, runBody, fetch_graphql_schema, fetch_data_from_indexer,
    hSchema, hTool, hQuery, hFail]

/-- Witness for C7 on the environment whose query execution fails. -/
theorem C7_witness :
    (run envIndexerFail cfgW none).1 =
      Except.error "Failed to fetch schema: 500, bad query" ∧
    (run envIndexerFail cfgW none).2.2.modelCalls =
      [first_request cfgW (envIndexerFail.post cfgW.endpoint introspection_query).jsonBody] ∧
    (run envIndexerFail cfgW none).2.2.indexerExecCalls = ["generated-query"] :=
  C7_indexer_failure envIndexerFail cfgW none "generated-query"
    rfl (by decide) rfl (by decide)

/-- Claim C1: with an allowed tool and all collaborators succeeding, run
returns the 4-tuple of the second completion text, the query-generation
prompt built by generate_graphql_query from the request, the fetched
schema, the description and the examples, and two none slots. -/
theorem C1_happy_path (env : Env) (cfg : Config) (client0 : Option OpenAIClient)
    (q summary : String)
    (hTool : cfg.tool ∈ ALLOWED_TOOLS)
    (hSchema : (env.post cfg.endpoint introspection_query).status_code = 200)
    (hQuery : env.complete
        (first_request cfg (env.post cfg.endpoint introspection_query).jsonBody) =
      Except.ok q)
    (hData : (env.post cfg.endpoint q).status_code = 200)
    (hSummary : env.complete
        (second_request cfg (env.post cfg.endpoint introspection_query).jsonBody q
          (env.post cfg.endpoint q).jsonBody) =
      Except.ok summary) :
    (run env cfg client0).1 =
      Except.ok (summary,
        some (generate_graphql_query cfg.request
          (env.post cfg.endpoint introspection_query).jsonBody
          cfg.description cfg.examples),
        none, none) := by
  simp [run, runBody, fetch_graphql_schema, fetch_data_from_indexer,
    hTool, hSchema, hQuery, hData, hSummary]

/-- Witness for C1 on the all-success environment. -/
theorem C1_witness :
    (run envW cfgW none).1 =
      Except.ok ("ANALYSIS SUMMARY",
        some (generate_graphql_query cfgW.request
          (envW.post cfgW.endpoint introspection_query).jsonBody
          cfgW.description cfgW.examples),
        none, none) :=
  C1_happy_path envW cfgW none "query \x7b nodes \x7d" "ANALYSIS SUMMARY"
    (by decide) rfl rfl rfl rfl

/-- Claim C5: every chat-completion payload sent during any execution of
run requests exactly one choice, a 120 second timeout and no stop
sequence, whatever the caller supplied for temperature and max_tokens. -/
theorem C5_completion_envelope (env : Env) (cfg : Config) (client0 : Option OpenAIClient)
    (req : ModelRequest) (h : req ∈ (run env cfg client0).2.2.modelCalls) :
    req.n = 1 ∧ req.timeout = 120 ∧ req.stop = none := by
  have hm : (run env cfg client0).2.2.modelCalls = (runBody env cfg).2.modelCalls := rfl
  rw [hm] at h
  unfold runBody at h
  split at h
  · simp at h
  · split at h
    · simp at h
    · split at h
      · simp at h
        subst h
        exact ⟨rfl, rfl, rfl⟩
      · split at h
        · simp at h
          subst h
          exact ⟨rfl, rfl, rfl⟩
        · split at h
          · simp at h
            rcases h with rfl | rfl <;> exact ⟨rfl, rfl, rfl⟩
          · simp at h
            rcases h with rfl | rfl <;> exact ⟨rfl, rfl, rfl⟩

/-- Witness for C5: the first payload of the all-success execution. -/
theorem C5_witness :
    (first_request cfgW (envW.post cfgW.endpoint introspection_query).jsonBody).n = 1 ∧
    (first_request cfgW (envW.post cfgW.endpoint introspection_query).jsonBody).timeout = 120 ∧
    (first_request cfgW (envW.post cfgW.endpoint introspection_query).jsonBody).stop = none := by
  refine C5_completion_envelope envW cfgW none _ ?_
  rw [show (run envW cfgW none).2.2.modelCalls =
    [first_request cfgW (envW.post cfgW.endpoint introspection_query).jsonBody,
     second_request cfgW (envW.post cfgW.endpoint introspection_query).jsonBody
       "query \x7b nodes \x7d"
       (envW.post cfgW.endpoint "query \x7b nodes \x7d").jsonBody] from rfl]
  exact List.mem_cons_self _ _

end OnchainDataFetcher
